import Mathlib

/-!
Verification development for the TD_print repository.

The repository consists of two Python files:

* tdprint_ext.py — class TDPrint, a TouchDesigner extension that prints the
  image from input 0 when the "Print" pulse parameter fires, and refreshes a
  printer-list menu on the "Refreshprinters" pulse.
* parameter_execute_dat.py — the Parameter Execute DAT callback onPulse that
  forwards pulses to the extension inside a try/except block.

This file gives a shallow embedding of the code.  Host calls that can fail
(parameter evaluation, subprocess invocation, file operations) are modelled
as Except Unit values supplied by an environment record; pure command
construction is modelled by plain functions over lists of strings, following
the source line by line.
-/

namespace TDPrint

/-- Python str.strip() on a character list: drop leading and trailing
whitespace. -/
def pyStripChars (cs : List Char) : List Char :=
  (((cs.dropWhile Char.isWhitespace).reverse).dropWhile Char.isWhitespace).reverse

/-- Python str.strip() (used in tdprint_ext.py lines 93 and 104). -/
def pyStrip (s : String) : String :=
  String.mk (pyStripChars s.data)

/-- Python str.lower() (used in tdprint_ext.py line 104); ASCII lowering
matches Python on the parameter values involved. -/
def pyLower (s : String) : String :=
  String.mk (s.data.map Char.toLower)

/-- Helper for Python str.split() with no argument: accumulate the
current word (reversed) while scanning, emitting words at whitespace and
dropping empty pieces. -/
def pySplitWsAux (cur : List Char) : List Char → List String
  | [] => if cur.isEmpty then [] else [String.mk cur.reverse]
  | c :: rest =>
    if c.isWhitespace then
      if cur.isEmpty then pySplitWsAux [] rest
      else String.mk cur.reverse :: pySplitWsAux [] rest
    else pySplitWsAux (c :: cur) rest

/-- Python str.split() with no argument (used as line.split() in
tdprint_ext.py line 131): split on runs of whitespace, dropping empty
pieces. -/
def pySplitWs (s : String) : List String :=
  pySplitWsAux [] s.data

/-- Helper for Python str.splitlines(): cut at newline characters. -/
def pySplitlinesAux (cur : List Char) : List Char → List String
  | [] => [String.mk cur.reverse]
  | c :: rest =>
    if c = '\n' then String.mk cur.reverse :: pySplitlinesAux [] rest
    else pySplitlinesAux (c :: cur) rest

/-- Python out.splitlines() (tdprint_ext.py lines 129, 152), modelled as
splitting at newline characters; a trailing newline contributes a final
empty line, which the parse loop ignores. -/
def pySplitlines (s : String) : List String :=
  pySplitlinesAux [] s.data

/-- Python line.startswith(pre) (tdprint_ext.py lines 130, 153). -/
def pyStartsWith (line pre : String) : Bool :=
  pre.data.isPrefixOf line.data

/-- Orientation normalisation performed in TDPrint.Print
(tdprint_ext.py lines 104-106): the parameter value is stripped and
lowercased, and any value other than auto/portrait/landscape is replaced
by "auto". -/
def normalizeOrientation (s : String) : String :=
  let t := pyLower (pyStrip s)
  if t = "auto" ∨ t = "portrait" ∨ t = "landscape" then t else "auto"

/-- Arguments appended by tdprint_ext.py lines 224-225: a -d flag when a
printer name is given (Python truthiness of a string is non-emptiness). -/
def dashDArgs (printer : String) : List String :=
  if printer ≠ "" then ["-d", printer] else []

/-- Arguments appended by tdprint_ext.py lines 226-227: a -n flag when
copies is truthy (non-zero) and greater than 1. -/
def dashNArgs (copies : Int) : List String :=
  if copies ≠ 0 ∧ copies > 1 then ["-n", toString copies] else []

/-- Scaling arguments appended by tdprint_ext.py lines 228-232:
fill_to_page takes the first branch, fit_to_page only the elif. -/
def scalingArgs (fill_to_page fit_to_page : Bool) : List String :=
  if fill_to_page then ["-o", "print-scaling=fill"]
  else if fit_to_page then ["-o", "fit-to-page"]
  else []

/-- Orientation arguments appended by tdprint_ext.py lines 233-237
(auto adds no option). -/
def orientationArgs (o : String) : List String :=
  if o = "landscape" then ["-o", "landscape"]
  else if o = "portrait" then ["-o", "landscape=false"]
  else []

/-- The lp command built by TDPrint._print_macos (tdprint_ext.py lines
221-238).  The source grows base_cmd with a sequence of guarded += steps
and finally appends the image path; each += step contributes exactly the
corresponding segment below, in the same order. -/
def print_macos_cmd (image_path printer : String) (copies : Int)
    (fit_to_page fill_to_page : Bool) (orientation : String) : List String :=
  let base_cmd := ["lp"]
  let base_cmd := if printer ≠ "" then base_cmd ++ ["-d", printer] else base_cmd
  let base_cmd :=
    if copies ≠ 0 ∧ copies > 1 then base_cmd ++ ["-n", toString copies] else base_cmd
  let base_cmd :=
    if fill_to_page then base_cmd ++ ["-o", "print-scaling=fill"]
    else if fit_to_page then base_cmd ++ ["-o", "fit-to-page"]
    else base_cmd
  let base_cmd :=
    if orientation = "landscape" then base_cmd ++ ["-o", "landscape"]
    else if orientation = "portrait" then base_cmd ++ ["-o", "landscape=false"]
    else base_cmd
  base_cmd ++ [image_path]

/-- The sequential guarded appends of print_macos_cmd flatten into a
concatenation of independent segments. -/
theorem print_macos_cmd_decompose (image_path printer : String) (copies : Int)
    (fit fill : Bool) (o : String) :
    print_macos_cmd image_path printer copies fit fill o
      = ["lp"] ++ dashDArgs printer ++ dashNArgs copies
          ++ scalingArgs fill fit ++ orientationArgs o ++ [image_path] := by
  simp only [print_macos_cmd, dashDArgs, dashNArgs, scalingArgs, orientationArgs]
  split_ifs <;> simp

/-- Outcome of the host call top.save(norm) inside
TDPrint._save_top_to_temp_png: it can return a truthy value, return a
falsy value, or raise. -/
inductive SaveOutcome
  | saveOk
  | saveReturnedFalse
  | saveRaised
deriving Repr, DecidableEq

/-- Result of _save_top_to_temp_png: the returned path (None on failure)
and whether the temp file created by mkstemp is still on disk
afterwards. -/
structure SaveResult where
  path : Option String
  tempFileExists : Bool
deriving Repr, DecidableEq

/-- TDPrint._save_top_to_temp_png (tdprint_ext.py lines 182-199).
mkstemp creates the file (its fresh path is tmpName); then top.save runs:
* truthy result: the path is returned, the file stays;
* falsy result: os.remove is attempted under try/except pass (removeOk
  tells whether it succeeded) and None is returned;
* raise: control jumps to the outer except, which logs and returns None
  without removing the file created by mkstemp.
The outer except makes the routine total: it never raises. -/
def save_top_to_temp_png (tmpName : String) (outcome : SaveOutcome)
    (removeOk : Bool) : SaveResult :=
  match outcome with
  | SaveOutcome.saveOk => { path := some tmpName, tempFileExists := true }
  | SaveOutcome.saveReturnedFalse => { path := none, tempFileExists := !removeOk }
  | SaveOutcome.saveRaised => { path := none, tempFileExists := true }

/-- Host environment for one invocation of TDPrint.Print: each parameter
evaluation is a host call that can raise (modelled as Except Unit), the
input-0 connection state, and the behaviour of the temp-file save. -/
structure PrintEnv where
  printerlistEval : Except Unit String
  topPresent : Bool
  tmpName : String
  saveOutcome : SaveOutcome
  removeOk : Bool
  printerEval : Except Unit String
  copiesEval : Except Unit Int
  fitEval : Except Unit Bool
  fillEval : Except Unit Bool
  orientationEval : Except Unit String

/-- The job record handed to the background print thread by
TDPrint.Print (tdprint_ext.py lines 110-115). -/
structure PrintJob where
  tmpPath : String
  printer : String
  copies : Int
  fit_to_page : Bool
  fill_to_page : Bool
  orientation : String
deriving Repr, DecidableEq

/-- TDPrint.Print (tdprint_ext.py lines 57-117).  Returns Except.error
when an uncaught host call raises (the body has no blanket handler:
line 60 and lines 92-107 run outside any try), Except.ok none when the
method returns early without starting a worker (no TOP on input 0, or
the temp save failed), and Except.ok (some job) when a background worker
was started with the captured job settings.  Input retrieval (lines
63-71) and the save routine catch their own exceptions, so they are
modelled by topPresent and save_top_to_temp_png. -/
def Print (env : PrintEnv) : Except Unit (Option PrintJob) :=
  match env.printerlistEval with
  | Except.error e => Except.error e
  | Except.ok printerlist_val =>
    if env.topPresent then
      match (save_top_to_temp_png env.tmpName env.saveOutcome env.removeOk).path with
      | none => Except.ok none
      | some tmp_path =>
        match env.printerEval with
        | Except.error e => Except.error e
        | Except.ok typed =>
          match env.copiesEval with
          | Except.error e => Except.error e
          | Except.ok copies0 =>
            match env.fitEval with
            | Except.error e => Except.error e
            | Except.ok fit_to_page =>
              match env.fillEval with
              | Except.error e => Except.error e
              | Except.ok fill_to_page =>
                match env.orientationEval with
                | Except.error e => Except.error e
                | Except.ok orientRaw =>
                  Except.ok (some {
                    tmpPath := tmp_path
                    printer :=
                      if printerlist_val ≠ "" ∧ printerlist_val ≠ "(refresh)"
                      then printerlist_val else pyStrip typed
                    copies := max 1 copies0
                    fit_to_page := fit_to_page
                    fill_to_page := fill_to_page
                    orientation := normalizeOrientation orientRaw })
    else
      Except.ok none

/-- Whether a Print result handed a job to a background worker. -/
def jobStarted (r : Except Unit (Option PrintJob)) : Bool :=
  match r with
  | Except.ok (some _) => true
  | _ => false

/-- Parse loop over lpstat -p output lines (tdprint_ext.py lines
129-132 and 151-155): a line starting with "printer " contributes
line.split()[1].  A line starting with "printer " whose split has fewer
than two pieces makes the index access raise, aborting the loop; the
Bool records that abort, and the accumulated names survive because the
outer except handler only logs. -/
def lpstatParseLoop (acc : List String) : List String → List String × Bool
  | [] => (acc, false)
  | line :: rest =>
    if pyStartsWith line "printer " then
      match (pySplitWs line).get? 1 with
      | some name => lpstatParseLoop (acc ++ [name]) rest
      | none => (acc, true)
    else lpstatParseLoop acc rest

/-- TDPrint._refresh_printer_list (tdprint_ext.py lines 121-180), macOS
and POSIX branches, as the menu-name list it builds.  query models
subprocess.check_output for lpstat -p: when it raises, the except on
line 156 only logs, and printers is still the empty list built on line
124.  Line 159 always puts "(refresh)" first.  The routine is total: the
query handler and the menu-update handler (lines 161-179) swallow every
exception. -/
def refresh_printer_list (query : Except Unit String) : List String :=
  let printers : List String :=
    match query with
    | Except.error _ => []
    | Except.ok out => (lpstatParseLoop [] (pySplitlines out)).1
  ["(refresh)"] ++ printers

/-- TDPrint.onPulse (tdprint_ext.py lines 38-46).  The body has no
try/except: for the name "Print" it returns self.Print() directly, so a
raise inside Print propagates to the caller; "Refreshprinters" runs the
(total) refresh routine and falls through to return None. -/
def onPulse (name : String) (env : PrintEnv) (query : Except Unit String) :
    Except Unit (Option PrintJob) :=
  if name = "Print" then Print env
  else if name = "Refreshprinters" then
    let _menu := refresh_printer_list query
    Except.ok none
  else Except.ok none

/-- onPulse of parameter_execute_dat.py (lines 14-24): the whole dispatch
runs inside try/except, the handler logs and the function returns None,
so the result is Except.ok () whatever the forwarded call does. -/
def dat_onPulse (name : String) (env : PrintEnv) (query : Except Unit String) :
    Except Unit Unit :=
  match (if name = "Print" then
           match Print env with
           | Except.error e => Except.error e
           | Except.ok _ => Except.ok ()
         else if name = "Refreshprinters" then
           let _menu := refresh_printer_list query
           Except.ok ()
         else (Except.ok () : Except Unit Unit)) with
  | Except.ok _ => Except.ok ()
  | Except.error _ => Except.ok ()

/-- Observable events of the background worker. -/
inductive WEvent
  | submitCmd (cmd : List String)
  | submitFailedLogged
  | slept
  | deleteAttempt (path : String)
  | deleted (path : String)
  | deleteFailedLogged (path : String)
deriving Repr, DecidableEq

/-- Event predicate: a deletion attempt on the temp file. -/
def isDeleteAttempt : WEvent → Bool
  | WEvent.deleteAttempt _ => true
  | _ => false

/-- Runtime behaviour of TDPrint._print_macos (tdprint_ext.py lines
239-245): it runs the constructed command once; subprocess failure is
caught and logged inside the method, so it never raises. -/
def print_macos_run (image_path printer : String) (copies : Int)
    (fit fill : Bool) (orientation : String) (cmdFails : Bool) : List WEvent :=
  let cmd := print_macos_cmd image_path printer copies fit fill orientation
  if cmdFails then [WEvent.submitCmd cmd, WEvent.submitFailedLogged]
  else [WEvent.submitCmd cmd]

/-- TDPrint._print_worker (tdprint_ext.py lines 201-219), macOS/POSIX
dispatch: try runs the submission (which swallows its own failures),
finally sleeps 2 seconds and then attempts os.remove once, the remove
being wrapped in try/except so a delete failure is logged, never
raised. -/
def print_worker (image_path printer : String) (copies : Int)
    (fit fill : Bool) (orientation : String) (cmdFails deleteFails : Bool) :
    List WEvent :=
  print_macos_run image_path printer copies fit fill orientation cmdFails
    ++ [WEvent.slept]
    ++ (if deleteFails
        then [WEvent.deleteAttempt image_path, WEvent.deleteFailedLogged image_path]
        else [WEvent.deleteAttempt image_path, WEvent.deleted image_path])

/-- The mspaint command of TDPrint._print_windows (tdprint_ext.py lines
259-262). -/
def mspaint_cmd (image_path printer : String) : List String :=
  if printer ≠ "" then ["mspaint.exe", "/pt", image_path, printer]
  else ["mspaint.exe", "/pt", image_path]

/-- The Photo Viewer fallback command of TDPrint._print_windows
(tdprint_ext.py lines 272-282). -/
def rundll_cmd (dll_path image_path printer : String) : List String :=
  let base := ["rundll32.exe", dll_path ++ ",ImageView_PrintTo", image_path]
  if printer ≠ "" then base ++ [printer] else base

/-- One iteration of run_once in TDPrint._print_windows (lines 257-289):
mspaint is attempted first; only if it raises does the except branch run
the Photo Viewer fallback (which swallows its own failure). -/
def run_once (image_path printer dll_path : String) (mspaintFails : Bool) :
    List (List String) :=
  if mspaintFails
  then [mspaint_cmd image_path printer, rundll_cmd dll_path image_path printer]
  else [mspaint_cmd image_path printer]

/-- TDPrint._print_windows (tdprint_ext.py lines 251-293): the copy count
is realised by running run_once max(1, copies) times in a loop, each
iteration independently deciding the fallback. -/
def print_windows (image_path printer dll_path : String) (copies : Int)
    (mspaintFails : Nat → Bool) : List (List (List String)) :=
  (List.range (max 1 copies).toNat).map fun i =>
    run_once image_path printer dll_path (mspaintFails i)

/-- Inversion for a successful Print run: when a job is handed to the
background worker, every parameter evaluation succeeded, the temp save
produced a path, and the job fields are exactly the captured and
normalised settings of tdprint_ext.py lines 92-107. -/
theorem Print_eq_ok_some (env : PrintEnv) (job : PrintJob)
    (h : Print env = Except.ok (some job)) :
    ∃ (plv typed : String) (c0 : Int) (ft fl : Bool) (orRaw tmp : String),
      env.printerlistEval = Except.ok plv
      ∧ env.printerEval = Except.ok typed
      ∧ env.copiesEval = Except.ok c0
      ∧ env.fitEval = Except.ok ft
      ∧ env.fillEval = Except.ok fl
      ∧ env.orientationEval = Except.ok orRaw
      ∧ (save_top_to_temp_png env.tmpName env.saveOutcome env.removeOk).path = some tmp
      ∧ job = { tmpPath := tmp
                printer := if plv ≠ "" ∧ plv ≠ "(refresh)" then plv else pyStrip typed
                copies := max 1 c0
                fit_to_page := ft
                fill_to_page := fl
                orientation := normalizeOrientation orRaw } := by
  unfold Print at h
  cases hq : env.printerlistEval with
  | error e => rw [hq] at h; exact absurd h (by simp)
  | ok plv =>
    rw [hq] at h
    cases ht : env.topPresent with
    | false => rw [ht] at h; simp at h
    | true =>
      rw [ht] at h
      simp only [if_true] at h
      cases hp : (save_top_to_temp_png env.tmpName env.saveOutcome env.removeOk).path with
      | none => rw [hp] at h; simp at h
      | some tmp =>
        rw [hp] at h
        cases hpr : env.printerEval with
        | error e => rw [hpr] at h; exact absurd h (by simp)
        | ok typed =>
          rw [hpr] at h
          cases hc : env.copiesEval with
          | error e => rw [hc] at h; exact absurd h (by simp)
          | ok c0 =>
            rw [hc] at h
            cases hft : env.fitEval with
            | error e => rw [hft] at h; exact absurd h (by simp)
            | ok ft =>
              rw [hft] at h
              cases hfl : env.fillEval with
              | error e => rw [hfl] at h; exact absurd h (by simp)
              | ok fl =>
                rw [hfl] at h
                cases hor : env.orientationEval with
                | error e => rw [hor] at h; exact absurd h (by simp)
                | ok orRaw =>
                  rw [hor] at h
                  simp only [Except.ok.injEq, Option.some.injEq] at h
                  exact ⟨plv, typed, c0, ft, fl, orRaw, tmp,
                    rfl, rfl, rfl, rfl, rfl, rfl, rfl, h.symm⟩

/-- C1 counterexample: a pulse named "Print" in an environment where the
very first host call inside Print (the Printerlist evaluation of
tdprint_ext.py line 60, which runs outside any try block) raises.  The
exception propagates out of TDPrint.onPulse, so the claim that no
exception ever escapes that entry point is false. -/
theorem c1_counterexample :
    onPulse "Print"
      { printerlistEval := Except.error (), topPresent := true, tmpName := "t.png",
        saveOutcome := SaveOutcome.saveOk, removeOk := true,
        printerEval := Except.ok "", copiesEval := Except.ok 1,
        fitEval := Except.ok true, fillEval := Except.ok false,
        orientationEval := Except.ok "auto" }
      (Except.ok "")
      = Except.error () := rfl

/-- C1 (amended): the Parameter Execute DAT entry point onPulse catches,
logs and swallows every exception, so the host never sees an error from
it; the extension method TDPrint.onPulse itself has no handler and can
propagate an exception raised during Print. -/
theorem c1_dat_onPulse_swallows :
    (∀ (name : String) (env : PrintEnv) (query : Except Unit String),
        dat_onPulse name env query = Except.ok ())
    ∧ (∃ env : PrintEnv, onPulse "Print" env (Except.ok "") = Except.error ()) := by
  constructor
  · intro name env query
    unfold dat_onPulse
    split <;> rfl
  · exact ⟨{ printerlistEval := Except.error (), topPresent := true, tmpName := "t.png",
             saveOutcome := SaveOutcome.saveOk, removeOk := true,
             printerEval := Except.ok "", copiesEval := Except.ok 1,
             fitEval := Except.ok true, fillEval := Except.ok false,
             orientationEval := Except.ok "auto" }, rfl⟩

/-- C2: for copies=1, fit_to_page=true, fill_to_page=false,
orientation="auto", printer="", the POSIX/macOS print command is exactly
lp -o fit-to-page followed by the file: no -d flag, no -n flag, and no
orientation option. -/
theorem c2_default_fit_command (file : String) :
    print_macos_cmd file "" 1 true false "auto" = ["lp", "-o", "fit-to-page", file] := rfl

/-- C3: for copies=3, printer="Office", fill_to_page=true the command
carries -d Office, -n 3 and -o print-scaling=fill whatever fit_to_page
is; and whenever fill_to_page is true the scaling segment of the command
is exactly -o print-scaling=fill and never -o fit-to-page, even if
fit_to_page is also true. -/
theorem c3_fill_precedence (file o : String) (fit : Bool) :
    print_macos_cmd file "Office" 3 fit true o
        = ["lp", "-d", "Office", "-n", "3", "-o", "print-scaling=fill"]
            ++ orientationArgs o ++ [file]
    ∧ (∀ (path printer o2 : String) (copies : Int) (fit2 : Bool),
        print_macos_cmd path printer copies fit2 true o2
          = ["lp"] ++ dashDArgs printer ++ dashNArgs copies
              ++ ["-o", "print-scaling=fill"] ++ orientationArgs o2 ++ [path]) := by
  constructor
  · exact (print_macos_cmd_decompose file "Office" 3 fit true o).trans rfl
  · intro path printer o2 copies fit2
    exact (print_macos_cmd_decompose path printer copies fit2 true o2).trans rfl

/-- C4: every orientation input normalises to auto, portrait or
landscape; a normalised landscape adds exactly the -o landscape segment
to the command, portrait adds -o landscape=false, and auto (the result
for every unrecognised value) adds no orientation segment at all. -/
theorem c4_orientation_cases (s image_path printer : String) (copies : Int)
    (fit fill : Bool) :
    (normalizeOrientation s = "auto" ∨ normalizeOrientation s = "portrait"
        ∨ normalizeOrientation s = "landscape")
    ∧ (normalizeOrientation s = "landscape" →
        print_macos_cmd image_path printer copies fit fill (normalizeOrientation s)
          = ["lp"] ++ dashDArgs printer ++ dashNArgs copies ++ scalingArgs fill fit
              ++ ["-o", "landscape"] ++ [image_path])
    ∧ (normalizeOrientation s = "portrait" →
        print_macos_cmd image_path printer copies fit fill (normalizeOrientation s)
          = ["lp"] ++ dashDArgs printer ++ dashNArgs copies ++ scalingArgs fill fit
              ++ ["-o", "landscape=false"] ++ [image_path])
    ∧ (normalizeOrientation s = "auto" →
        print_macos_cmd image_path printer copies fit fill (normalizeOrientation s)
          = ["lp"] ++ dashDArgs printer ++ dashNArgs copies ++ scalingArgs fill fit
              ++ [image_path]) := by
  refine ⟨?_, ?_, ?_, ?_⟩
  · simp only [normalizeOrientation]
    split
    · next h => exact h
    · exact Or.inl rfl
  · intro h
    rw [h, print_macos_cmd_decompose]
    rfl
  · intro h
    rw [h, print_macos_cmd_decompose]
    rfl
  · intro h
    rw [h, print_macos_cmd_decompose]
    simp [orientationArgs]

/-- C4 witness: an upper-case, padded landscape value normalises to
landscape and the command gets the -o landscape segment. -/
theorem c4_witness :
    print_macos_cmd "img.png" "" 1 true false (normalizeOrientation "  LANDSCAPE ")
      = ["lp"] ++ dashDArgs "" ++ dashNArgs 1 ++ scalingArgs false true
          ++ ["-o", "landscape"] ++ ["img.png"] :=
  (c4_orientation_cases "  LANDSCAPE " "img.png" "" 1 true false).2.1 (by decide)

/-- C5: any integer the Copies parameter evaluates to, zero and negative
values included, is clamped so that every job handed to the worker has
at least one copy, and the Windows loop always performs at least one
run. -/
theorem c5_copies_clamped :
    (∀ (env : PrintEnv) (job : PrintJob),
        Print env = Except.ok (some job) → 1 ≤ job.copies)
    ∧ (∀ (image_path printer dll_path : String) (copies : Int)
        (mspaintFails : Nat → Bool),
        1 ≤ (print_windows image_path printer dll_path copies mspaintFails).length) := by
  constructor
  · intro env job h
    obtain ⟨plv, typed, c0, ft, fl, orRaw, tmp, -, -, -, -, -, -, -, hjob⟩ :=
      Print_eq_ok_some env job h
    rw [hjob]
    exact le_max_left 1 c0
  · intro image_path printer dll_path copies mspaintFails
    have h1 : (1 : Int) ≤ max 1 copies := le_max_left 1 copies
    simp only [print_windows, List.length_map, List.length_range]
    omega

/-- C5 witness: a Copies value of 0 produces a job with one copy. -/
theorem c5_witness :
    1 ≤ ({ tmpPath := "t.png", printer := "", copies := 1, fit_to_page := true,
           fill_to_page := false, orientation := "auto" } : PrintJob).copies :=
  c5_copies_clamped.1
    { printerlistEval := Except.ok "", topPresent := true, tmpName := "t.png",
      saveOutcome := SaveOutcome.saveOk, removeOk := true,
      printerEval := Except.ok "", copiesEval := Except.ok 0,
      fitEval := Except.ok true, fillEval := Except.ok false,
      orientationEval := Except.ok "auto" }
    { tmpPath := "t.png", printer := "", copies := 1, fit_to_page := true,
      fill_to_page := false, orientation := "auto" }
    rfl

/-- C6: in every invocation of Print that starts a worker, the printer
target of the job is the Printerlist selector value whenever that value is
non-empty and different from the "(refresh)" sentinel, and the stripped
typed Printer value otherwise. -/
theorem c6_selector_overrides (env : PrintEnv) (plv typed : String) (job : PrintJob)
    (h1 : env.printerlistEval = Except.ok plv)
    (h2 : env.printerEval = Except.ok typed)
    (h3 : Print env = Except.ok (some job)) :
    job.printer = (if plv ≠ "" ∧ plv ≠ "(refresh)" then plv else pyStrip typed) := by
  obtain ⟨plv2, typed2, c0, ft, fl, orRaw, tmp, e1, e2, -, -, -, -, -, hjob⟩ :=
    Print_eq_ok_some env job h3
  rw [h1] at e1
  rw [h2] at e2
  obtain rfl : plv = plv2 := by injection e1
  obtain rfl : typed = typed2 := by injection e2
  rw [hjob]

/-- C6 witness: a selector value "Sel" overrides the typed name. -/
theorem c6_witness :
    ({ tmpPath := "t.png", printer := "Sel", copies := 2, fit_to_page := true,
       fill_to_page := false, orientation := "auto" } : PrintJob).printer = "Sel" := by
  rw [c6_selector_overrides
    { printerlistEval := Except.ok "Sel", topPresent := true, tmpName := "t.png",
      saveOutcome := SaveOutcome.saveOk, removeOk := true,
      printerEval := Except.ok " HP ", copiesEval := Except.ok 2,
      fitEval := Except.ok true, fillEval := Except.ok false,
      orientationEval := Except.ok "auto" }
    "Sel" " HP "
    { tmpPath := "t.png", printer := "Sel", copies := 2, fit_to_page := true,
      fill_to_page := false, orientation := "auto" }
    rfl rfl rfl]
  rfl

/-- C7: when the lpstat query raises, the menu list built by the
enumeration routine is exactly the "(refresh)" sentinel alone, and in
every case the sentinel is the first element.  The routine is modelled
as a total function because tdprint_ext.py lines 156-157 and 161-179
catch every exception raised during the query, the parse and the menu
update. -/
theorem c7_refresh_failure_sentinel :
    refresh_printer_list (Except.error ()) = ["(refresh)"]
    ∧ ∀ query : Except Unit String,
        (refresh_printer_list query).head? = some "(refresh)" := by
  refine ⟨rfl, ?_⟩
  intro query
  cases query <;> rfl

/-- C8: in every run of the background worker — submission succeeding or
failing, deletion succeeding or failing — exactly one deletion attempt
occurs, it comes after the submission event, and a failing deletion only
adds a log event (the worker trace is total, nothing is raised). -/
theorem c8_delete_attempted_once (image_path printer orientation : String)
    (copies : Int) (fit fill cmdFails deleteFails : Bool) :
    ((print_worker image_path printer copies fit fill orientation cmdFails
        deleteFails).countP isDeleteAttempt) = 1
    ∧ (∃ pre post,
        print_worker image_path printer copies fit fill orientation cmdFails deleteFails
          = pre ++ WEvent.deleteAttempt image_path :: post
        ∧ WEvent.submitCmd (print_macos_cmd image_path printer copies fit fill orientation)
            ∈ pre)
    ∧ (deleteFails = true →
        WEvent.deleteFailedLogged image_path
          ∈ print_worker image_path printer copies fit fill orientation cmdFails
              deleteFails) := by
  refine ⟨?_, ?_, ?_⟩
  · cases cmdFails <;> cases deleteFails <;>
      simp [print_worker, print_macos_run, isDeleteAttempt]
  · cases cmdFails with
    | false =>
      cases deleteFails with
      | false =>
        exact ⟨[WEvent.submitCmd
            (print_macos_cmd image_path printer copies fit fill orientation),
          WEvent.slept], [WEvent.deleted image_path], rfl, by simp⟩
      | true =>
        exact ⟨[WEvent.submitCmd
            (print_macos_cmd image_path printer copies fit fill orientation),
          WEvent.slept], [WEvent.deleteFailedLogged image_path], rfl, by simp⟩
    | true =>
      cases deleteFails with
      | false =>
        exact ⟨[WEvent.submitCmd
            (print_macos_cmd image_path printer copies fit fill orientation),
          WEvent.submitFailedLogged, WEvent.slept],
          [WEvent.deleted image_path], rfl, by simp⟩
      | true =>
        exact ⟨[WEvent.submitCmd
            (print_macos_cmd image_path printer copies fit fill orientation),
          WEvent.submitFailedLogged, WEvent.slept],
          [WEvent.deleteFailedLogged image_path], rfl, by simp⟩
  · intro h
    rw [h]
    cases cmdFails <;> simp [print_worker, print_macos_run]

/-- C8 witness: with a failing deletion the worker logs the failure. -/
theorem c8_witness :
    WEvent.deleteFailedLogged "t.png"
      ∈ print_worker "t.png" "" 1 true false "auto" false true :=
  (c8_delete_attempted_once "t.png" "" "auto" 1 true false false true).2.2 rfl

/-- C9 counterexample: when top.save raises, _save_top_to_temp_png
returns None through its outer except handler, which never reaches the
os.remove of lines 190-193 — the save failed, yet the mkstemp file is
still on disk, contrary to the claim that a failed save leaves no
temporary file behind. -/
theorem c9_counterexample :
    (save_top_to_temp_png "tmp.png" SaveOutcome.saveRaised true).path = none
    ∧ (save_top_to_temp_png "tmp.png" SaveOutcome.saveRaised true).tempFileExists
        = true :=
  ⟨rfl, rfl⟩

/-- C9 (amended): whenever image export fails — no TOP connected, or the
save produced no path — Print never hands a job to a background worker,
so no OS print command is issued; and the temp file is removed exactly
when the save call returned a falsy value and the removal itself
succeeded (a raising save leaves the file behind). -/
theorem c9_export_failure_aborts :
    (∀ env : PrintEnv,
        env.topPresent = false
          ∨ (save_top_to_temp_png env.tmpName env.saveOutcome env.removeOk).path = none →
        jobStarted (Print env) = false)
    ∧ (∀ (tmpName : String),
        (save_top_to_temp_png tmpName SaveOutcome.saveReturnedFalse true).tempFileExists
          = false) := by
  constructor
  · intro env h
    cases hq : env.printerlistEval with
    | error e => simp [Print, jobStarted, hq]
    | ok plv =>
      rcases h with h | h
      · simp [Print, jobStarted, hq, h]
      · cases ht : env.topPresent with
        | false => simp [Print, jobStarted, hq, ht]
        | true => simp [Print, jobStarted, hq, ht, h]
  · intro tmpName
    rfl

/-- C9 witness: a save that returns a falsy value aborts the job and the
removal of lines 190-193 leaves no temp file. -/
theorem c9_witness :
    jobStarted (Print
      { printerlistEval := Except.ok "", topPresent := true, tmpName := "t.png",
        saveOutcome := SaveOutcome.saveReturnedFalse, removeOk := true,
        printerEval := Except.ok "", copiesEval := Except.ok 1,
        fitEval := Except.ok true, fillEval := Except.ok false,
        orientationEval := Except.ok "auto" }) = false
    ∧ (save_top_to_temp_png "t.png" SaveOutcome.saveReturnedFalse true).tempFileExists
        = false :=
  ⟨c9_export_failure_aborts.1
      { printerlistEval := Except.ok "", topPresent := true, tmpName := "t.png",
        saveOutcome := SaveOutcome.saveReturnedFalse, removeOk := true,
        printerEval := Except.ok "", copiesEval := Except.ok 1,
        fitEval := Except.ok true, fillEval := Except.ok false,
        orientationEval := Except.ok "auto" }
      (Or.inr rfl),
    c9_export_failure_aborts.2 "t.png"⟩

/-- C10: on Windows the copy count n is realised by running the print
command max(1, n) times in sequence; every iteration attempts mspaint
first (it is always the head of the command list of the iteration), an
iteration with mspaint succeeding issues only the mspaint command, and
an iteration with mspaint failing issues mspaint then the Photo Viewer
rundll fallback. -/
theorem c10_windows_repetition (image_path printer dll_path : String)
    (copies : Int) (mspaintFails : Nat → Bool) :
    (print_windows image_path printer dll_path copies mspaintFails).length
        = (max 1 copies).toNat
    ∧ (∀ i : Nat, i < (max 1 copies).toNat →
        (print_windows image_path printer dll_path copies mspaintFails).get? i
          = some (run_once image_path printer dll_path (mspaintFails i)))
    ∧ (∀ b : Bool, (run_once image_path printer dll_path b).head?
        = some (mspaint_cmd image_path printer))
    ∧ run_once image_path printer dll_path false = [mspaint_cmd image_path printer]
    ∧ run_once image_path printer dll_path true
        = [mspaint_cmd image_path printer,
           rundll_cmd dll_path image_path printer] := by
  refine ⟨?_, ?_, ?_, rfl, rfl⟩
  · simp [print_windows]
  · intro i hi
    simp [print_windows, List.get?_eq_getElem?, List.getElem?_map, List.getElem?_range, hi]
  · intro b
    cases b <;> rfl

/-- C10 witness: with copies=2 and mspaint succeeding, the second
iteration is the single mspaint command. -/
theorem c10_witness :
    (print_windows "img.png" "" "pv.dll" 2 (fun _ => false)).get? 1
      = some (run_once "img.png" "" "pv.dll" false) :=
  (c10_windows_repetition "img.png" "" "pv.dll" 2 (fun _ => false)).2.1 1 (by decide)

end TDPrint

